import Mathlib

set_option maxHeartbeats 1000000
set_option maxRecDepth 10000

/- Shallow embedding of the RAUW tafel-ontwerper core (src/mix_images.py and
the slice of src/api.py that wraps it).  Pure functions of the source are
translated directly; effects are made explicit:
  * the filesystem read is a total function `fs : String -> List Nat` giving
    each path its byte contents;
  * the wall clock is a function `clock : Nat -> Nat` whose argument counts
    the prior calls to time.time() in the run, so `clock k` is the
    whole-seconds value returned by the (k+1)-st call;
  * the remote generative service is a function from the request parts to the
    list of response chunks of its stream;
  * writing an output file is recorded by appending its name to a list. -/

/- Boolean check that one character list starts with another. -/
def charListStarts : List Char → List Char → Bool
  | [], _ => true
  | _ :: _, [] => false
  | a :: as, b :: bs => a == b && charListStarts as bs

/- Boolean check that a character list occurs inside another. -/
def charListHasInfix (needle : List Char) : List Char → Bool
  | [] => needle.isEmpty
  | b :: bs => charListStarts needle (b :: bs) || charListHasInfix needle bs

/- Case-sensitive substring test on strings. -/
def containsSubstr (hay needle : String) : Bool :=
  charListHasInfix needle.data hay.data

/- Case-sensitive test that a string starts with the given text. -/
def strStartsWith (s pre : String) : Bool :=
  charListStarts pre.data s.data

/- Case-sensitive test that a string ends with the given text. -/
def strEndsWith (s suffix : String) : Bool :=
  charListStarts suffix.data.reverse s.data.reverse

/- Model of the two-argument Python os.path.join: an absolute second component
wins, otherwise a separator is inserted unless the first component is empty or
already ends with one. -/
def osPathJoin (dir name : String) : String :=
  if strStartsWith name "/" then name
  else if dir = "" then name
  else if strEndsWith dir "/" then dir ++ name
  else dir ++ "/" ++ name

/- Model of the Python standard library lookup mimetypes.guess_type, restricted
to the image suffixes relevant to this repository; a suffix outside the
modelled table maps to none, which is exactly an unresolvable MIME type. -/
def mimetypesGuessTypeTable (file_path : String) : Option String :=
  if strEndsWith file_path ".png" then some "image/png"
  else if strEndsWith file_path ".jpg" then some "image/jpeg"
  else if strEndsWith file_path ".jpeg" then some "image/jpeg"
  else if strEndsWith file_path ".gif" then some "image/gif"
  else if strEndsWith file_path ".webp" then some "image/webp"
  else if strEndsWith file_path ".bmp" then some "image/bmp"
  else none

/- Model of the Python standard library lookup mimetypes.guess_extension,
restricted to the image types relevant to this repository; a MIME type outside
the modelled table maps to none, which Python renders as the text None when
interpolated into the file name. -/
def mimetypesGuessExt (mime_type : String) : Option String :=
  if mime_type = "image/png" then some ".png"
  else if mime_type = "image/jpeg" then some ".jpg"
  else if mime_type = "image/gif" then some ".gif"
  else if mime_type = "image/webp" then some ".webp"
  else if mime_type = "image/bmp" then some ".bmp"
  else none

/- Python string interpolation of an optional value: some e prints as e, and
None prints as the literal text None. -/
def pyShowOptStr : Option String → String
  | some e => e
  | none => "None"

/- One part of a request sent to the remote model: either inline image bytes
with their MIME type (types.Part(inline_data=types.Blob(...))) or the trailing
instruction text (types.Part.from_text). -/
inductive ReqPart where
  | image (data : List Nat) (mime_type : String) : ReqPart
  | text (t : String) : ReqPart
deriving DecidableEq

/- google.genai Blob carried by a response part: mime_type plus raw bytes; an
absent or empty bytes field is modelled as the empty list, both being falsy in
Python. -/
structure Blob where
  mime_type : String
  data : List Nat
deriving DecidableEq

/- One part of a response chunk: optional inline data and optional text,
mirroring the genai Part object fields read by the code. -/
structure RespPart where
  inline_data : Option Blob
  text : Option String
deriving DecidableEq

/- The content of a response candidate: an optional list of parts. -/
structure RContent where
  parts : Option (List RespPart)
deriving DecidableEq

/- One response candidate: optional content. -/
structure RCandidate where
  content : Option RContent
deriving DecidableEq

/- One chunk of the streamed response: an optional list of candidates. -/
structure Chunk where
  candidates : Option (List RCandidate)
deriving DecidableEq

/- The mutable state of _process_api_stream_response: the number of calls made
to time.time() so far, the file_index counter, the names of the files written
so far (in write order), and the text lines printed so far (in print order). -/
structure DemuxAcc where
  time_calls : Nat
  file_index : Nat
  files : List String
  texts : List String
deriving DecidableEq

/- The runtime error raised when the guard of the chunk loop evaluates
chunk.candidates[0] on an empty candidates list. -/
inductive DemuxErr where
  | indexError : DemuxErr
deriving DecidableEq

/- The elif branch of the part loop: a truthy part.text is printed, anything
else is ignored. -/
def streamTextBranch (acc : DemuxAcc) (p : RespPart) : DemuxAcc :=
  match p.text with
  | some t => if t ≠ "" then ⟨acc.time_calls, acc.file_index, acc.files, acc.texts ++ [t]⟩ else acc
  | none => acc

/- The body of the inner part loop of _process_api_stream_response: a part
with truthy inline_data.data gets a timestamp from time.time(), an extension
guessed from its MIME type, and is saved under
output_dir/remixed_image_<timestamp>_<file_index><ext>, incrementing
file_index; otherwise a truthy text part is printed. -/
def streamStepPart (clock : Nat → Nat) (output_dir : String) (acc : DemuxAcc) (p : RespPart) : DemuxAcc :=
  match p.inline_data with
  | some blob =>
    if blob.data ≠ [] then
      let timestamp := clock acc.time_calls
      let file_extension := mimetypesGuessExt blob.mime_type
      let file_name := osPathJoin output_dir
        ("remixed_image_" ++ toString timestamp ++ "_" ++ toString acc.file_index ++ pyShowOptStr file_extension)
      ⟨acc.time_calls + 1, acc.file_index + 1, acc.files ++ [file_name], acc.texts⟩
    else streamTextBranch acc p
  | none => streamTextBranch acc p

/- The inner part loop, folded left over the parts of candidates[0].content. -/
def streamParts (clock : Nat → Nat) (output_dir : String) : DemuxAcc → List RespPart → DemuxAcc
  | acc, [] => acc
  | acc, p :: ps => streamParts clock output_dir (streamStepPart clock output_dir acc p) ps

/- One iteration of the chunk loop: the guard skips a chunk whose candidates
field is None, whose first candidate has no content, or whose content has no
parts; but evaluating chunk.candidates[0] on a present-but-empty candidates
list raises IndexError. -/
def streamStepChunk (clock : Nat → Nat) (output_dir : String) (acc : DemuxAcc) (c : Chunk) :
    Except DemuxErr DemuxAcc :=
  match c.candidates with
  | none => .ok acc
  | some [] => .error .indexError
  | some (cand :: _) =>
    match cand.content with
    | none => .ok acc
    | some content =>
      match content.parts with
      | none => .ok acc
      | some parts => .ok (streamParts clock output_dir acc parts)

/- The chunk loop of _process_api_stream_response; an exception aborts the
iteration immediately. -/
def streamChunks (clock : Nat → Nat) (output_dir : String) : DemuxAcc → List Chunk → Except DemuxErr DemuxAcc
  | acc, [] => .ok acc
  | acc, c :: cs =>
    match streamStepChunk clock output_dir acc c with
    | .error e => .error e
    | .ok acc2 => streamChunks clock output_dir acc2 cs

/- _process_api_stream_response: consume the whole stream starting from
file_index = 0 with no files written and no text printed. -/
def process_api_stream_response (clock : Nat → Nat) (output_dir : String) (chunks : List Chunk) :
    Except DemuxErr DemuxAcc :=
  streamChunks clock output_dir ⟨0, 0, [], []⟩ chunks

/- _get_mime_type: guess the MIME type from the file suffix and raise
ValueError with a descriptive message when it cannot be determined. -/
def get_mime_type (file_path : String) : Except String String :=
  match mimetypesGuessTypeTable file_path with
  | some mime_type => .ok mime_type
  | none => .error ("Could not determine MIME type for " ++ file_path)

/- _load_image_parts: read each file and wrap its bytes and resolved MIME type
as an inline-data part, in the order of the input list; the first unresolvable
MIME type aborts the whole load with its ValueError. -/
def load_image_parts (fs : String → List Nat) : List String → Except String (List ReqPart)
  | [] => .ok []
  | image_path :: rest =>
    let image_data := fs image_path
    match get_mime_type image_path with
    | .error e => .error e
    | .ok mime_type =>
      match load_image_parts fs rest with
      | .error e => .error e
      | .ok parts => .ok (ReqPart.image image_data mime_type :: parts)

/- The errors remix_images can raise: the missing-credential ValueError, the
ValueError from _get_mime_type, or an exception escaping the stream loop. -/
inductive RemixError where
  | missingKey : RemixError
  | invalidInput (msg : String) : RemixError
  | demux (e : DemuxErr) : RemixError
deriving DecidableEq

/- Python str() of the exceptions above, as seen by the API wrapper. -/
def remixErrorStr : RemixError → String
  | .missingKey => "GEMINI_API_KEY environment variable not set."
  | .invalidInput msg => msg
  | .demux _ => "list index out of range"

/- remix_images: check the credential, load the image parts, append the single
instruction-text part, then perform the one streamed remote call and
demultiplex its response.  The first component records the part lists of the
remote calls actually performed (the request reaches the remote service
exactly when loading succeeded), the second the outcome. -/
def remix_images (apiKey : Option String) (fs : String → List Nat)
    (remote : List ReqPart → List Chunk) (clock : Nat → Nat)
    (image_paths : List String) (prompt : String) (output_dir : String) :
    List (List ReqPart) × Except RemixError DemuxAcc :=
  match apiKey with
  | none => ([], .error .missingKey)
  | some _ =>
    match load_image_parts fs image_paths with
    | .error msg => ([], .error (.invalidInput msg))
    | .ok parts =>
      let contents := parts ++ [ReqPart.text prompt]
      let stream := remote contents
      ([contents], (process_api_stream_response clock output_dir stream).mapError RemixError.demux)

/- generate_table_prompt: one of exactly two templates selected by with_room,
with the leg clause appended to either template when legs is truthy. -/
def generate_table_prompt (with_room : Bool) (legs : String) : String :=
  let legs_instruction :=
    if legs ≠ "" then " IMPORTANT: The table must have exactly " ++ legs ++ " legs." else ""
  if with_room then
    "Create a photorealistic visualization by following these steps: " ++
    "1) First, combine the table shape from image 1, the table base from image 2, " ++
    "and the wood finish/color from image 3 into one complete, elegant custom dining table. " ++
    "2) Then, place this complete table naturally in the room shown in image 4. " ++
    "Match the perspective, lighting, and shadows of the room precisely. " ++
    "The table should integrate seamlessly as if it belongs in this space, " ++
    "with realistic proportions, natural placement on the floor, " ++
    "and appropriate shadows and reflections. " ++
    "The final image should look like a professional photograph of this custom table " ++
    "in the actual room." ++ legs_instruction
  else
    "Create a new image by combining the elements from the provided images. " ++
    "Take [the table shape] from image 1 and combine it with [the table base] from image 2, " ++
    "applying [the wood finish and color] from image 3. " ++
    "The final image should be [a complete, elegant custom-made dining table " ++
    "placed prominently in a modern, stylish living room with natural lighting]." ++ legs_instruction

/- The outcome visible to a client of the POST /api/generate endpoint. -/
inductive ApiOutcome where
  | httpError (status : Nat) (detail : String) : ApiOutcome
  | success (output_url file_name : String) : ApiOutcome
deriving DecidableEq

/- The largest modification time among the directory entries, used to model
that files written now are newer than everything already present. -/
def maxMtime (entries : List (String × Nat)) : Nat :=
  List.foldl (fun m e => max m e.2) 0 entries

/- Pair each newly written file with a strictly increasing modification time
starting at the given base. -/
def stampNew (base : Nat) : List String → List (String × Nat)
  | [] => []
  | n :: ns => (n, base) :: stampNew (base + 1) ns

/- The head of sorted(..., key=mtime, reverse=True): the entry with the
largest modification time, the earliest such entry on ties (Python sort is
stable). -/
def pickLatest : List (String × Nat) → Option (String × Nat)
  | [] => none
  | e :: es =>
    match pickLatest es with
    | none => some e
    | some b => some (if b.2 > e.2 then b else e)

/- generate_table, the POST /api/generate handler of src/api.py, restricted to
requests without a room photo upload (the claims do not involve that branch):
validate that the three selected files exist, build the room-less prompt with
no leg constraint, check the credential, call remix_images, then look for the
newest remixed_image_* entry of the output directory.  The output directory is
modelled as the empty root so that artifact names coincide with the basenames
the glob pattern is matched against; its prior contents are the entries
argument, as (name, mtime) pairs.  The no-output HTTPException raised inside
the try block is caught by the generic except handler and re-raised with its
str() interpolated, exactly as a remix exception would be. -/
def generate_table (vormExists onderstelExists kleurExists : Bool) (apiKey : Option String)
    (entries : List (String × Nat)) (fs : String → List Nat)
    (remote : List ReqPart → List Chunk) (clock : Nat → Nat)
    (vorm onderstel kleur : String) : ApiOutcome :=
  if vormExists = false then .httpError 404 ("vorm file not found: " ++ vorm)
  else if onderstelExists = false then .httpError 404 ("onderstel file not found: " ++ onderstel)
  else if kleurExists = false then .httpError 404 ("kleur file not found: " ++ kleur)
  else
    let prompt := generate_table_prompt false ""
    match apiKey with
    | none => .httpError 500 "GEMINI_API_KEY not configured. Please set environment variable."
    | some key =>
      match remix_images (some key) fs remote clock [vorm, onderstel, kleur] prompt "" with
      | (_, .error e) => .httpError 500 ("Generation failed: " ++ remixErrorStr e)
      | (_, .ok acc) =>
        let entriesAfter := entries ++ stampNew (maxMtime entries + 1) acc.files
        let output_files := entriesAfter.filter (fun e => strStartsWith e.1 "remixed_image_")
        match pickLatest output_files with
        | none => .httpError 500 ("Generation failed: " ++ "500: Image generation failed - no output produced")
        | some latest => .success ("/api/output/" ++ latest.1) latest.1

/- The outcome of running main(): the interactive designer (entered when no -i
flag was given; not modelled further), a parser.error exit, or a run of
remix_images with its recorded remote calls and result. -/
inductive CliOutcome where
  | interactiveMode : CliOutcome
  | parserError (msg : String) : CliOutcome
  | ran (events : List (List ReqPart)) (result : Except RemixError DemuxAcc) : CliOutcome

/- The CLI-mode append of the room image: it is added exactly when a room
image was given, exactly three images were supplied and the room file exists. -/
def appendRoomImage (images : List String) (roomImage : Option String)
    (fileExists : String → Bool) : List String :=
  match roomImage with
  | some r => if images.length = 3 ∧ fileExists r = true then images ++ [r] else images
  | none => images

/- The CLI-mode default prompt selection of main() when --prompt is absent. -/
def choosePrompt (num_images : Nat) (roomImage promptArg legsArg : Option String) : String :=
  match promptArg with
  | some p => p
  | none =>
    if num_images = 4 ∧ roomImage.isSome then generate_table_prompt true (legsArg.getD "")
    else if num_images = 3 then generate_table_prompt false (legsArg.getD "")
    else if num_images = 1 then
      "Turn this image into a professional quality studio shoot with better lighting and depth of field."
    else "Combine the subjects of these images in a natural way, producing a new image."

/- The CLI branch of main() after the room-image handling: the image count is
validated before the prompt is chosen and before remix_images is invoked;
parser.error aborts the process, so no remote call can follow it. -/
def mainCliValidated (apiKey : Option String) (fs : String → List Nat)
    (remote : List ReqPart → List Chunk) (clock : Nat → Nat)
    (all_image_paths : List String) (roomImage promptArg legsArg : Option String)
    (output_dir : String) : CliOutcome :=
  if 1 ≤ all_image_paths.length ∧ all_image_paths.length ≤ 5 then
    match remix_images apiKey fs remote clock all_image_paths
        (choosePrompt all_image_paths.length roomImage promptArg legsArg) output_dir with
    | (events, result) => .ran events result
  else .parserError "Please provide between 1 and 5 input images using the -i flag."

/- main(): an empty -i list selects the interactive designer, otherwise the
CLI mode runs with the room image possibly appended.  An empty-string option
value, being falsy in Python, is modelled as none. -/
def main_model (apiKey : Option String) (fs : String → List Nat)
    (remote : List ReqPart → List Chunk) (clock : Nat → Nat)
    (images : List String) (roomImage promptArg legsArg : Option String)
    (output_dir : String) (fileExists : String → Bool) : CliOutcome :=
  if images = [] then .interactiveMode
  else mainCliValidated apiKey fs remote clock
    (appendRoomImage images roomImage fileExists) roomImage promptArg legsArg output_dir

/- The MIME types of the binary parts the inner loop writes, in order. -/
def binMimes : List RespPart → List String
  | [] => []
  | p :: ps =>
    match p.inline_data with
    | some b => if b.data ≠ [] then b.mime_type :: binMimes ps else binMimes ps
    | none => binMimes ps

/- The truthy text of one non-binary part, as printed by the elif branch. -/
def textHead (p : RespPart) : List String :=
  match p.text with
  | some t => if t ≠ "" then [t] else []
  | none => []

/- The texts printed by the inner loop, in order. -/
def textsOf : List RespPart → List String
  | [] => []
  | p :: ps =>
    match p.inline_data with
    | some b => if b.data ≠ [] then textsOf ps else textHead p ++ textsOf ps
    | none => textHead p ++ textsOf ps

/- The MIME types of the binary parts a chunk contributes: nothing when the
guard skips it, the binary parts of its first candidate otherwise. -/
def chunkMimes (c : Chunk) : List String :=
  match c.candidates with
  | none => []
  | some [] => []
  | some (cand :: _) =>
    match cand.content with
    | none => []
    | some content =>
      match content.parts with
      | none => []
      | some parts => binMimes parts

/- The texts a chunk contributes. -/
def chunkTexts (c : Chunk) : List String :=
  match c.candidates with
  | none => []
  | some [] => []
  | some (cand :: _) =>
    match cand.content with
    | none => []
    | some content =>
      match content.parts with
      | none => []
      | some parts => textsOf parts

/- All binary MIME types of a stream, in arrival order. -/
def streamMimes : List Chunk → List String
  | [] => []
  | c :: cs => chunkMimes c ++ streamMimes cs

/- All printed texts of a stream, in arrival order. -/
def streamTexts : List Chunk → List String
  | [] => []
  | c :: cs => chunkTexts c ++ streamTexts cs

/- The file names the demultiplexer produces for a list of binary MIME types
when the clock counter starts at t0 and the file index at i0. -/
def expectedFiles (clock : Nat → Nat) (output_dir : String) : Nat → Nat → List String → List String
  | _, _, [] => []
  | t0, i0, m :: ms =>
    osPathJoin output_dir
        ("remixed_image_" ++ toString (clock t0) ++ "_" ++ toString i0 ++ pyShowOptStr (mimetypesGuessExt m))
      :: expectedFiles clock output_dir (t0 + 1) (i0 + 1) ms

/- A chunk the guard skips, or one whose parts are all non-binary: such a
chunk contributes no file and no index increment. -/
def chunkTextOnly (c : Chunk) : Bool :=
  match c.candidates with
  | none => true
  | some [] => false
  | some (cand :: _) =>
    match cand.content with
    | none => true
    | some content =>
      match content.parts with
      | none => true
      | some parts => parts.all (fun p =>
          match p.inline_data with
          | some b => b.data.isEmpty
          | none => true)

/- Length of the produced file-name list. -/
theorem expectedFiles_length (clock : Nat → Nat) (output_dir : String) :
    ∀ (ms : List String) (t0 i0 : Nat),
      (expectedFiles clock output_dir t0 i0 ms).length = ms.length := by
  intro ms
  induction ms with
  | nil => intro t0 i0; simp [expectedFiles]
  | cons m ms ih => intro t0 i0; simp [expectedFiles, ih]

/- Splitting the produced file names along a split of the MIME list. -/
theorem expectedFiles_append (clock : Nat → Nat) (output_dir : String) :
    ∀ (ms1 ms2 : List String) (t0 i0 : Nat),
      expectedFiles clock output_dir t0 i0 (ms1 ++ ms2) =
        expectedFiles clock output_dir t0 i0 ms1 ++
          expectedFiles clock output_dir (t0 + ms1.length) (i0 + ms1.length) ms2 := by
  intro ms1
  induction ms1 with
  | nil => intro ms2 t0 i0; simp [expectedFiles]
  | cons m ms ih =>
    intro ms2 t0 i0
    have h1 : t0 + 1 + ms.length = t0 + (ms.length + 1) := by omega
    have h2 : i0 + 1 + ms.length = i0 + (ms.length + 1) := by omega
    simp [expectedFiles, ih, h1, h2]

/- Characterisation of the inner part loop: each binary part consumes one
clock reading and one index value, and appends the corresponding file name;
each truthy text part is appended to the printed texts. -/
theorem streamParts_eq (clock : Nat → Nat) (output_dir : String) :
    ∀ (ps : List RespPart) (acc : DemuxAcc),
      streamParts clock output_dir acc ps =
        ⟨acc.time_calls + (binMimes ps).length,
         acc.file_index + (binMimes ps).length,
         acc.files ++ expectedFiles clock output_dir acc.time_calls acc.file_index (binMimes ps),
         acc.texts ++ textsOf ps⟩ := by
  intro ps
  induction ps with
  | nil => intro acc; simp [streamParts, binMimes, textsOf, expectedFiles]
  | cons p ps ih =>
    intro acc
    obtain ⟨pd, pt⟩ := p
    cases pd with
    | none =>
      cases pt with
      | none => simp [streamParts, streamStepPart, streamTextBranch, binMimes, textsOf, textHead, ih]
      | some t =>
        by_cases ht : t = "" <;>
          simp [streamParts, streamStepPart, streamTextBranch, binMimes, textsOf, textHead, ht, ih]
    | some b =>
      by_cases hb : b.data = []
      · cases pt with
        | none =>
          simp [streamParts, streamStepPart, streamTextBranch, binMimes, textsOf, textHead, hb, ih]
        | some t =>
          by_cases ht : t = "" <;>
            simp [streamParts, streamStepPart, streamTextBranch, binMimes, textsOf, textHead, hb, ht, ih]
      · simp only [streamParts, streamStepPart, hb, if_pos, ne_eq, not_false_iff, if_true, ih,
          binMimes, textsOf, expectedFiles]
        simp only [DemuxAcc.mk.injEq]
        refine ⟨?_, ?_, ?_, ?_⟩ <;> simp [List.append_assoc] <;> omega

/- Characterisation of a successful chunk loop run starting from an arbitrary
accumulator state. -/
theorem streamChunks_ok_eq (clock : Nat → Nat) (output_dir : String) :
    ∀ (cs : List Chunk) (acc r : DemuxAcc),
      streamChunks clock output_dir acc cs = .ok r →
      r = ⟨acc.time_calls + (streamMimes cs).length,
           acc.file_index + (streamMimes cs).length,
           acc.files ++ expectedFiles clock output_dir acc.time_calls acc.file_index (streamMimes cs),
           acc.texts ++ streamTexts cs⟩ := by
  intro cs
  induction cs with
  | nil =>
    intro acc r h
    simp only [streamChunks, Except.ok.injEq] at h
    subst h
    simp [streamMimes, streamTexts, expectedFiles]
  | cons c cs ih =>
    intro acc r h
    obtain ⟨cands⟩ := c
    cases cands with
    | none =>
      simp only [streamChunks, streamStepChunk] at h
      have hr := ih acc r h
      simpa [streamMimes, streamTexts, chunkMimes, chunkTexts, expectedFiles] using hr
    | some cl =>
      cases cl with
      | nil => simp [streamChunks, streamStepChunk] at h
      | cons cand crest =>
        obtain ⟨ct⟩ := cand
        cases ct with
        | none =>
          simp only [streamChunks, streamStepChunk] at h
          have hr := ih acc r h
          simpa [streamMimes, streamTexts, chunkMimes, chunkTexts] using hr
        | some content =>
          obtain ⟨pts⟩ := content
          cases pts with
          | none =>
            simp only [streamChunks, streamStepChunk] at h
            have hr := ih acc r h
            simpa [streamMimes, streamTexts, chunkMimes, chunkTexts] using hr
          | some parts =>
            simp only [streamChunks, streamStepChunk] at h
            rw [streamParts_eq] at h
            have hr := ih _ r h
            rw [hr]
            simp only [streamMimes, streamTexts, chunkMimes, chunkTexts, List.length_append,
              expectedFiles_append, DemuxAcc.mk.injEq]
            refine ⟨?_, ?_, ?_, ?_⟩
            · omega
            · omega
            · simp [List.append_assoc]
            · simp [List.append_assoc]

/- When every path has a resolvable MIME type, loading succeeds and yields one
inline-data part per path, in input order. -/
theorem load_image_parts_ok (fs : String → List Nat) :
    ∀ (image_paths : List String),
      (∀ p ∈ image_paths, (mimetypesGuessTypeTable p).isSome = true) →
      load_image_parts fs image_paths =
        .ok (image_paths.map fun p => ReqPart.image (fs p) ((mimetypesGuessTypeTable p).getD "")) := by
  intro image_paths
  induction image_paths with
  | nil => intro _; simp [load_image_parts]
  | cons p ps ih =>
    intro h
    have hp : (mimetypesGuessTypeTable p).isSome = true := h p (by simp)
    obtain ⟨m, hm⟩ := Option.isSome_iff_exists.mp hp
    have hrest := ih (fun q hq => h q (by simp [hq]))
    simp [load_image_parts, get_mime_type, hm, hrest]

/- When some path has an unresolvable MIME type, loading fails with the
descriptive ValueError of the first such path. -/
theorem load_image_parts_err (fs : String → List Nat) :
    ∀ (image_paths : List String),
      (∃ p ∈ image_paths, mimetypesGuessTypeTable p = none) →
      ∃ q ∈ image_paths, mimetypesGuessTypeTable q = none ∧
        load_image_parts fs image_paths = .error ("Could not determine MIME type for " ++ q) := by
  intro image_paths
  induction image_paths with
  | nil => intro h; simp at h
  | cons p ps ih =>
    intro h
    cases hp : mimetypesGuessTypeTable p with
    | none =>
      exact ⟨p, by simp, hp, by simp [load_image_parts, get_mime_type, hp]⟩
    | some m =>
      have hps : ∃ q ∈ ps, mimetypesGuessTypeTable q = none := by
        obtain ⟨q, hq, hqn⟩ := h
        rcases List.mem_cons.mp hq with rfl | hq2
        · rw [hp] at hqn; exact absurd hqn (by simp)
        · exact ⟨q, hq2, hqn⟩
      obtain ⟨q, hq, hqn, hload⟩ := ih hps
      exact ⟨q, by simp [hq], hqn, by simp [load_image_parts, get_mime_type, hp, hload]⟩

/-- C3: for every input image list containing at least one file whose MIME
type cannot be inferred from its filename suffix, remix_images fails with the
descriptive ValueError of _get_mime_type before any remote call or stream
interaction occurs: the list of performed remote calls is empty, so no partial
request is sent and no MIME type is silently defaulted. -/
theorem c3_unresolvable_mime_fails_fast (key : String) (fs : String → List Nat)
    (remote : List ReqPart → List Chunk) (clock : Nat → Nat)
    (image_paths : List String) (prompt : String) (output_dir : String)
    (h : ∃ p ∈ image_paths, mimetypesGuessTypeTable p = none) :
    (remix_images (some key) fs remote clock image_paths prompt output_dir).1 = [] ∧
    ∃ q ∈ image_paths, mimetypesGuessTypeTable q = none ∧
      (remix_images (some key) fs remote clock image_paths prompt output_dir).2 =
        .error (.invalidInput ("Could not determine MIME type for " ++ q)) := by
  obtain ⟨q, hq, hqn, hload⟩ := load_image_parts_err fs image_paths h
  exact ⟨by simp [remix_images, hload], q, hq, hqn, by simp [remix_images, hload]⟩

/-- Witness for C3 at a concrete input: the second path has an unrecognized
suffix, the operation fails with the descriptive error and performs no remote
call. -/
theorem c3_witness :
    (remix_images (some "k") (fun _ => [1]) (fun _ => []) (fun _ => 0)
        ["vorm.png", "onderstel.xyz"] "combine" "output").1 = [] ∧
    ∃ q ∈ ["vorm.png", "onderstel.xyz"], mimetypesGuessTypeTable q = none ∧
      (remix_images (some "k") (fun _ => [1]) (fun _ => []) (fun _ => 0)
          ["vorm.png", "onderstel.xyz"] "combine" "output").2 =
        .error (.invalidInput ("Could not determine MIME type for " ++ q)) :=
  c3_unresolvable_mime_fails_fast "k" (fun _ => [1]) (fun _ => []) (fun _ => 0)
    ["vorm.png", "onderstel.xyz"] "combine" "output"
    ⟨"onderstel.xyz", by simp, by decide⟩

/-- C4: for every leg-count value in {2,3,4} and both room-mode settings the
generated instruction text contains the exact substring "exactly N legs", and
with an empty leg-count the text contains no leg-count clause at all (not even
the word legs). -/
theorem c4_legs_substring :
    (∀ legs ∈ (["2", "3", "4"] : List String), ∀ with_room : Bool,
      containsSubstr (generate_table_prompt with_room legs) ("exactly " ++ legs ++ " legs") = true) ∧
    (∀ with_room : Bool, containsSubstr (generate_table_prompt with_room "") "legs" = false) := by
  constructor
  · intro legs hlegs with_room
    rcases List.mem_cons.mp hlegs with rfl | hlegs
    · cases with_room <;> decide
    rcases List.mem_cons.mp hlegs with rfl | hlegs
    · cases with_room <;> decide
    rcases List.mem_cons.mp hlegs with rfl | hlegs
    · cases with_room <;> decide
    · simp at hlegs
  · intro with_room
    cases with_room <;> decide

/-- Witness for C4 at a concrete input: the room-mode template for 3 legs
contains "exactly 3 legs". -/
theorem c4_witness :
    containsSubstr (generate_table_prompt true "3") ("exactly " ++ "3" ++ " legs") = true :=
  c4_legs_substring.1 "3" (by simp) true

/-- Counterexample to C5 as stated: with a leg count of 2 and room mode false,
the generated instruction text does not contain the quoted clause "the table
must have exactly 2 legs." at all (the code appends the differently cased
" IMPORTANT: The table must have exactly 2 legs."), so that clause is not
appended verbatim. -/
theorem c5_counterexample :
    containsSubstr (generate_table_prompt false "2") "the table must have exactly 2 legs." = false := by
  decide

/-- C5 as amended: whenever a leg-count constraint is present, the clause
" IMPORTANT: The table must have exactly N legs." (capital T, preceded by an
IMPORTANT marker) is appended verbatim to the instruction text produced by
either template, so the constraint is never silently dropped. -/
theorem c5_amended_clause_appended (legs : String) (h : legs ≠ "") (with_room : Bool) :
    ∃ template : String,
      generate_table_prompt with_room legs =
        template ++ (" IMPORTANT: The table must have exactly " ++ legs ++ " legs.") := by
  cases with_room <;> (simp [generate_table_prompt, h]; exact ⟨_, rfl⟩)

/-- Witness for the amended C5 at a concrete input: legs 4 with the room-mode
template. -/
theorem c5_amended_witness :
    ∃ template : String,
      generate_table_prompt true "4" =
        template ++ (" IMPORTANT: The table must have exactly " ++ "4" ++ " legs.") :=
  c5_amended_clause_appended "4" (by decide) true

/-- C6: for every list of input image files whose MIME types all resolve,
remix_images performs exactly one remote call whose parts are exactly one
ImagePart per input file, in the same order as the input list, followed by
exactly one trailing instruction-text part; in particular the request has
length n + 1 with the text part last. -/
theorem c6_request_shape (key : String) (fs : String → List Nat)
    (remote : List ReqPart → List Chunk) (clock : Nat → Nat)
    (image_paths : List String) (prompt : String) (output_dir : String)
    (h : ∀ p ∈ image_paths, (mimetypesGuessTypeTable p).isSome = true) :
    (remix_images (some key) fs remote clock image_paths prompt output_dir).1 =
      [(image_paths.map fun p => ReqPart.image (fs p) ((mimetypesGuessTypeTable p).getD ""))
        ++ [ReqPart.text prompt]] ∧
    ((image_paths.map fun p => ReqPart.image (fs p) ((mimetypesGuessTypeTable p).getD ""))
        ++ [ReqPart.text prompt]).length = image_paths.length + 1 ∧
    ((image_paths.map fun p => ReqPart.image (fs p) ((mimetypesGuessTypeTable p).getD ""))
        ++ [ReqPart.text prompt]).getLast? = some (ReqPart.text prompt) := by
  refine ⟨?_, by simp, ?_⟩
  · simp [remix_images, load_image_parts_ok fs image_paths h]
  · rw [List.getLast?_concat]

/-- Witness for C6 at a concrete input: three images (the room-less table
designer workflow) yield a four-part request whose last part is the
instruction text. -/
theorem c6_witness :
    (remix_images (some "k") (fun _ => [7]) (fun _ => []) (fun _ => 0)
        ["vorm.png", "onderstel.jpg", "kleur.jpeg"] (generate_table_prompt false "") "output").1 =
      [(["vorm.png", "onderstel.jpg", "kleur.jpeg"].map
          fun p => ReqPart.image ((fun _ => [7]) p) ((mimetypesGuessTypeTable p).getD ""))
        ++ [ReqPart.text (generate_table_prompt false "")]] ∧
    ((["vorm.png", "onderstel.jpg", "kleur.jpeg"].map
          fun p => ReqPart.image ((fun _ => [7]) p) ((mimetypesGuessTypeTable p).getD ""))
        ++ [ReqPart.text (generate_table_prompt false "")]).length =
      ["vorm.png", "onderstel.jpg", "kleur.jpeg"].length + 1 ∧
    ((["vorm.png", "onderstel.jpg", "kleur.jpeg"].map
          fun p => ReqPart.image ((fun _ => [7]) p) ((mimetypesGuessTypeTable p).getD ""))
        ++ [ReqPart.text (generate_table_prompt false "")]).getLast? =
      some (ReqPart.text (generate_table_prompt false "")) :=
  c6_request_shape "k" (fun _ => [7]) (fun _ => []) (fun _ => 0)
    ["vorm.png", "onderstel.jpg", "kleur.jpeg"] (generate_table_prompt false "") "output"
    (by decide)

/-- Counterexample to C1 as stated: in a run whose clock advances one second
between the two time.time() calls (start of run at 100), the second artifact
is named with timestamp 101, not with the run-start timestamp 100, so the
filename is not remixed_image_<unixTimestampAtStart>_<index>.<ext> and the
artifacts of one run do not share one timestamp. -/
theorem c1_counterexample :
    process_api_stream_response (fun k => 100 + k) "out"
      [⟨some [⟨some ⟨some [⟨some ⟨"image/png", [137]⟩, none⟩]⟩⟩]⟩,
       ⟨some [⟨some ⟨some [⟨some ⟨"image/png", [137]⟩, none⟩]⟩⟩]⟩] =
      .ok ⟨2, 2, ["out/remixed_image_100_0.png", "out/remixed_image_101_1.png"], []⟩ ∧
    ("out/remixed_image_101_1.png" : String) ≠ "out/remixed_image_100_1.png" :=
  ⟨by rfl, by decide⟩

/-- C1 as amended: for every binary response part written, the output file is
named remixed_image_<t_k>_<k><ext> (joined to the output directory), where k
is the zero-based per-run index of the part and t_k is the whole-seconds
clock value sampled at the moment that part is written - one time.time() call
per binary part, not a single timestamp taken at the start of the run - and
the extension is derived from the part's reported MIME type. -/
theorem c1_amended_per_part_timestamp (clock : Nat → Nat) (output_dir : String)
    (chunks : List Chunk) (r : DemuxAcc)
    (h : process_api_stream_response clock output_dir chunks = .ok r) :
    r.files = expectedFiles clock output_dir 0 0 (streamMimes chunks) := by
  have hr := streamChunks_ok_eq clock output_dir chunks ⟨0, 0, [], []⟩ r h
  rw [hr]
  simp

/-- Witness for the amended C1 at a concrete input: a run over two binary
parts with an advancing clock produces exactly the predicted file names. -/
theorem c1_amended_witness :
    (⟨2, 2, ["out/remixed_image_100_0.png", "out/remixed_image_101_1.png"], []⟩ : DemuxAcc).files =
      expectedFiles (fun k => 100 + k) "out" 0 0
        (streamMimes [⟨some [⟨some ⟨some [⟨some ⟨"image/png", [137]⟩, none⟩]⟩⟩]⟩,
                      ⟨some [⟨some ⟨some [⟨some ⟨"image/png", [137]⟩, none⟩]⟩⟩]⟩]) :=
  c1_amended_per_part_timestamp (fun k => 100 + k) "out"
    [⟨some [⟨some ⟨some [⟨some ⟨"image/png", [137]⟩, none⟩]⟩⟩]⟩,
     ⟨some [⟨some ⟨some [⟨some ⟨"image/png", [137]⟩, none⟩]⟩⟩]⟩] _ (by rfl)

/-- C2: across an entire response stream the file index starts at 0 and is
incremented exactly once per binary part written (the final index equals the
number of binary parts, as does the number of files, never counting chunks or
text parts); and on the concrete two-chunk stream - chunk A carrying text
"hello" and a PNG part, chunk B carrying a JPEG part - exactly two files are
written, with index 0 and extension .png for the PNG and index 1 and
extension .jpg for the JPEG, in arrival order, while the text "hello" is
emitted exactly once and never becomes a file. -/
theorem c2_index_once_per_binary_part :
    (∀ (clock : Nat → Nat) (output_dir : String) (chunks : List Chunk) (r : DemuxAcc),
        process_api_stream_response clock output_dir chunks = .ok r →
        r.file_index = (streamMimes chunks).length ∧
        r.files.length = (streamMimes chunks).length) ∧
    (∀ (clock : Nat → Nat) (output_dir : String),
        process_api_stream_response clock output_dir
          [⟨some [⟨some ⟨some [⟨none, some "hello"⟩, ⟨some ⟨"image/png", [137]⟩, none⟩]⟩⟩]⟩,
           ⟨some [⟨some ⟨some [⟨some ⟨"image/jpeg", [255]⟩, none⟩]⟩⟩]⟩] =
          .ok ⟨2, 2,
            [osPathJoin output_dir ("remixed_image_" ++ toString (clock 0) ++ "_" ++ "0" ++ ".png"),
             osPathJoin output_dir ("remixed_image_" ++ toString (clock 1) ++ "_" ++ "1" ++ ".jpg")],
            ["hello"]⟩) := by
  constructor
  · intro clock output_dir chunks r h
    have hr := streamChunks_ok_eq clock output_dir chunks ⟨0, 0, [], []⟩ r h
    rw [hr]
    simp [expectedFiles_length]
  · intro clock output_dir
    simp +decide [process_api_stream_response, streamChunks, streamStepChunk, streamParts,
      streamStepPart, streamTextBranch, pyShowOptStr, mimetypesGuessExt]
    exact ⟨rfl, rfl⟩

/-- Witness for C2 at a concrete input: on the two-chunk scenario stream with
a constant clock, the final index and file count both equal the number of
binary parts. -/
theorem c2_witness :
    (⟨2, 2, ["out/remixed_image_9_0.png", "out/remixed_image_9_1.jpg"], ["hello"]⟩ : DemuxAcc).file_index =
      (streamMimes [⟨some [⟨some ⟨some [⟨none, some "hello"⟩, ⟨some ⟨"image/png", [137]⟩, none⟩]⟩⟩]⟩,
                    ⟨some [⟨some ⟨some [⟨some ⟨"image/jpeg", [255]⟩, none⟩]⟩⟩]⟩]).length ∧
    (⟨2, 2, ["out/remixed_image_9_0.png", "out/remixed_image_9_1.jpg"], ["hello"]⟩ : DemuxAcc).files.length =
      (streamMimes [⟨some [⟨some ⟨some [⟨none, some "hello"⟩, ⟨some ⟨"image/png", [137]⟩, none⟩]⟩⟩]⟩,
                    ⟨some [⟨some ⟨some [⟨some ⟨"image/jpeg", [255]⟩, none⟩]⟩⟩]⟩]).length :=
  c2_index_once_per_binary_part.1 (fun _ => 9) "out"
    [⟨some [⟨some ⟨some [⟨none, some "hello"⟩, ⟨some ⟨"image/png", [137]⟩, none⟩]⟩⟩]⟩,
     ⟨some [⟨some ⟨some [⟨some ⟨"image/jpeg", [255]⟩, none⟩]⟩⟩]⟩] _ (by rfl)

/-- C9: the guard does skip, without error, a chunk whose candidates field is
None, one whose first candidate has no content, and one whose content has no
parts; but on a chunk whose candidates list is present and empty the code
evaluates chunk.candidates[0] and raises IndexError instead of skipping, so
the stream processing aborts. -/
theorem c9_empty_candidates_crash :
    process_api_stream_response (fun _ => 0) "out" [⟨some []⟩] = .error .indexError ∧
    process_api_stream_response (fun _ => 0) "out"
      [⟨none⟩, ⟨some [⟨none⟩]⟩, ⟨some [⟨some ⟨none⟩⟩]⟩] = .ok ⟨0, 0, [], []⟩ :=
  ⟨by rfl, by rfl⟩

/-- C10: a binary response part whose reported MIME type has no extension
mapping raises no error; the file is still written and its name ends in the
literal text None where the dot-extension would be, because Python
interpolates the None returned by mimetypes.guess_extension. -/
theorem c10_unknown_mime_writes_none_suffix (clock : Nat → Nat) (output_dir mime : String)
    (data : List Nat) (hm : mimetypesGuessExt mime = none) (hd : data ≠ []) :
    process_api_stream_response clock output_dir
        [⟨some [⟨some ⟨some [⟨some ⟨mime, data⟩, none⟩]⟩⟩]⟩] =
      .ok ⟨1, 1,
        [osPathJoin output_dir ("remixed_image_" ++ toString (clock 0) ++ "_" ++ "0" ++ "None")],
        []⟩ := by
  simp [process_api_stream_response, streamChunks, streamStepChunk, streamParts, streamStepPart,
    hm, hd, pyShowOptStr]
  rfl

/-- Witness for C10 at a concrete input: an unmapped MIME type yields the file
name out/remixed_image_7_0None and no error. -/
theorem c10_witness :
    process_api_stream_response (fun _ => 7) "out"
      [⟨some [⟨some ⟨some [⟨some ⟨"application/x-mystery", [42]⟩, none⟩]⟩⟩]⟩] =
      .ok ⟨1, 1, ["out/remixed_image_7_0None"], []⟩ :=
  c10_unknown_mime_writes_none_suffix (fun _ => 7) "out" "application/x-mystery" [42]
    (by decide) (by decide)

/-- C7: for every CLI invocation of main() whose supplied image list has a
length outside 1-5 (after the room-image handling), parser.error aborts with
the count message before the prompt is chosen and before remix_images - and
hence any remote call - is attempted. -/
theorem c7_count_guard (apiKey : Option String) (fs : String → List Nat)
    (remote : List ReqPart → List Chunk) (clock : Nat → Nat)
    (images : List String) (roomImage promptArg legsArg : Option String)
    (output_dir : String) (fileExists : String → Bool)
    (h1 : images ≠ []) (h2 : ¬(1 ≤ images.length ∧ images.length ≤ 5)) :
    main_model apiKey fs remote clock images roomImage promptArg legsArg output_dir fileExists =
      .parserError "Please provide between 1 and 5 input images using the -i flag." := by
  have h6 : 6 ≤ images.length := by
    have := List.length_pos.mpr h1
    omega
  have happ : appendRoomImage images roomImage fileExists = images := by
    cases roomImage with
    | none => rfl
    | some r =>
      simp only [appendRoomImage]
      rw [if_neg]
      rintro ⟨h3, _⟩
      omega
  simp only [main_model, if_neg h1, happ, mainCliValidated, if_neg h2]

/-- Witness for C7 at a concrete input: six images yield the parser error. -/
theorem c7_witness :
    main_model none (fun _ => []) (fun _ => []) (fun _ => 0)
      ["a.png", "b.png", "c.png", "d.png", "e.png", "f.png"] none none none "output"
      (fun _ => false) =
      .parserError "Please provide between 1 and 5 input images using the -i flag." :=
  c7_count_guard none (fun _ => []) (fun _ => []) (fun _ => 0)
    ["a.png", "b.png", "c.png", "d.png", "e.png", "f.png"] none none none "output"
    (fun _ => false) (by decide) (by decide)

/- A filter by a predicate false on every element yields the empty list. -/
theorem filter_none_of_false {α : Type} (p : α → Bool) :
    ∀ (l : List α), (∀ a ∈ l, p a = false) → l.filter p = [] := by
  intro l
  induction l with
  | nil => intro _; rfl
  | cons a as ih =>
    intro h
    have ha := h a (by simp)
    simp [List.filter, ha, ih (fun b hb => h b (by simp [hb]))]

/- All binary MIME types of a part list vanish when no part carries truthy
inline data. -/
theorem binMimes_nil_of_no_binary :
    ∀ (ps : List RespPart),
      (∀ p ∈ ps, (match p.inline_data with
        | some b => b.data.isEmpty
        | none => true) = true) →
      binMimes ps = [] := by
  intro ps
  induction ps with
  | nil => intro _; rfl
  | cons p ps ih =>
    intro h
    have hp := h p (by simp)
    have hr := ih (fun q hq => h q (by simp [hq]))
    cases hpd : p.inline_data with
    | none => simp [binMimes, hpd, hr]
    | some b =>
      rw [hpd] at hp
      have hbd : b.data = [] := by simpa using hp
      simp [binMimes, hpd, hbd, hr]

/- A skippable or text-only chunk contributes no MIME type and is not the
empty-candidates crash case. -/
theorem chunkTextOnly_mimes (c : Chunk) (h : chunkTextOnly c = true) :
    chunkMimes c = [] ∧ c.candidates ≠ some [] := by
  obtain ⟨cands⟩ := c
  cases cands with
  | none => exact ⟨rfl, by simp⟩
  | some cl =>
    cases cl with
    | nil => simp [chunkTextOnly] at h
    | cons cand rest =>
      obtain ⟨ct⟩ := cand
      cases ct with
      | none => exact ⟨rfl, by simp⟩
      | some content =>
        obtain ⟨pts⟩ := content
        cases pts with
        | none => exact ⟨rfl, by simp⟩
        | some parts =>
          refine ⟨?_, by simp⟩
          simp only [chunkTextOnly, List.all_eq_true] at h
          simpa [chunkMimes] using binMimes_nil_of_no_binary parts h

/- A stream of skippable or text-only chunks has no binary MIME types. -/
theorem streamMimes_textOnly :
    ∀ (cs : List Chunk), (∀ c ∈ cs, chunkTextOnly c = true) → streamMimes cs = [] := by
  intro cs
  induction cs with
  | nil => intro _; rfl
  | cons c cs ih =>
    intro h
    have hc := (chunkTextOnly_mimes c (h c (by simp))).1
    simp [streamMimes, hc, ih (fun d hd => h d (by simp [hd]))]

/- Over skippable or text-only chunks the chunk loop raises no exception. -/
theorem streamChunks_textOnly_ok (clock : Nat → Nat) (output_dir : String) :
    ∀ (cs : List Chunk), (∀ c ∈ cs, chunkTextOnly c = true) →
      ∀ acc, ∃ r, streamChunks clock output_dir acc cs = .ok r := by
  intro cs
  induction cs with
  | nil => intro _ acc; exact ⟨acc, rfl⟩
  | cons c cs ih =>
    intro h acc
    have hc := h c (by simp)
    have hrest := ih (fun d hd => h d (by simp [hd]))
    obtain ⟨cands⟩ := c
    cases cands with
    | none => simpa [streamChunks, streamStepChunk] using hrest _
    | some cl =>
      cases cl with
      | nil => simp [chunkTextOnly] at hc
      | cons cand rest =>
        obtain ⟨ct⟩ := cand
        cases ct with
        | none => simpa [streamChunks, streamStepChunk] using hrest _
        | some content =>
          obtain ⟨pts⟩ := content
          cases pts with
          | none => simpa [streamChunks, streamStepChunk] using hrest _
          | some parts => simpa [streamChunks, streamStepChunk] using hrest _

/- A stream of skippable or text-only chunks demultiplexes without error into
zero files, index zero, and exactly its texts. -/
theorem process_textOnly (clock : Nat → Nat) (output_dir : String) (cs : List Chunk)
    (h : ∀ c ∈ cs, chunkTextOnly c = true) :
    process_api_stream_response clock output_dir cs = .ok ⟨0, 0, [], streamTexts cs⟩ := by
  obtain ⟨r, hr⟩ := streamChunks_textOnly_ok clock output_dir cs h ⟨0, 0, [], []⟩
  have hshape := streamChunks_ok_eq clock output_dir cs ⟨0, 0, [], []⟩ r hr
  have hm := streamMimes_textOnly cs h
  rw [process_api_stream_response, hr, hshape]
  simp [hm, expectedFiles]

/-- Counterexample to C8 as stated: the output directory already holds one
stale artifact remixed_image_1_0.png from an earlier run; the remote stream
has zero chunks, the demultiplexer writes zero files, yet the caller-visible
result of /api/generate is success pointing at the stale artifact, not an
empty-result error, because the endpoint detects output by globbing
remixed_image_* in the shared directory. -/
theorem c8_counterexample :
    generate_table true true true (some "k") [("remixed_image_1_0.png", 5)] (fun _ => [1])
        (fun _ => []) (fun _ => 0) "v.png" "o.png" "k.png" =
      .success "/api/output/remixed_image_1_0.png" "remixed_image_1_0.png" ∧
    ∀ status detail,
      generate_table true true true (some "k") [("remixed_image_1_0.png", 5)] (fun _ => [1])
          (fun _ => []) (fun _ => 0) "v.png" "o.png" "k.png" ≠
        .httpError status detail := by
  have h : generate_table true true true (some "k") [("remixed_image_1_0.png", 5)] (fun _ => [1])
      (fun _ => []) (fun _ => 0) "v.png" "o.png" "k.png" =
      .success "/api/output/remixed_image_1_0.png" "remixed_image_1_0.png" := by rfl
  exact ⟨h, fun status detail => by rw [h]; simp⟩

/-- C8 as amended: for a response stream with zero chunks or with only
skippable or text-only chunks, the demultiplexer writes zero files without
error and its index stays 0; and the caller-visible result of /api/generate
is the no-output error (HTTP 500 with detail "Generation failed: 500: Image
generation failed - no output produced", a message distinct from transport
failures) provided the output directory holds no artifact of a previous run
whose name starts with remixed_image_; with such stale artifacts present the
endpoint instead reports success with the newest stale artifact. -/
theorem c8_amended_empty_result :
    (∀ (clock : Nat → Nat) (output_dir : String) (chunks : List Chunk),
        (∀ c ∈ chunks, chunkTextOnly c = true) →
        process_api_stream_response clock output_dir chunks = .ok ⟨0, 0, [], streamTexts chunks⟩) ∧
    (∀ (key : String) (entries : List (String × Nat)) (fs : String → List Nat)
        (remote : List ReqPart → List Chunk) (clock : Nat → Nat) (vorm onderstel kleur : String),
        (∀ e ∈ entries, strStartsWith e.1 "remixed_image_" = false) →
        (mimetypesGuessTypeTable vorm).isSome = true →
        (mimetypesGuessTypeTable onderstel).isSome = true →
        (mimetypesGuessTypeTable kleur).isSome = true →
        (∀ req, ∀ c ∈ remote req, chunkTextOnly c = true) →
        generate_table true true true (some key) entries fs remote clock vorm onderstel kleur =
          .httpError 500 "Generation failed: 500: Image generation failed - no output produced") := by
  constructor
  · intro clock output_dir chunks h
    exact process_textOnly clock output_dir chunks h
  · intro key entries fs remote clock vorm onderstel kleur hent hv ho hk hstream
    have hload := load_image_parts_ok fs [vorm, onderstel, kleur] (by
      intro p hp
      rcases List.mem_cons.mp hp with rfl | hp
      · exact hv
      rcases List.mem_cons.mp hp with rfl | hp
      · exact ho
      rcases List.mem_cons.mp hp with rfl | hp
      · exact hk
      · simp at hp)
    have hproc : ∀ req, process_api_stream_response clock "" (remote req) =
        .ok ⟨0, 0, [], streamTexts (remote req)⟩ :=
      fun req => process_textOnly clock "" (remote req) (hstream req)
    have hfilter : entries.filter (fun e => strStartsWith e.1 "remixed_image_") = [] :=
      filter_none_of_false _ entries hent
    simp [generate_table, remix_images, hload, hproc, stampNew, hfilter, pickLatest,
      Except.mapError]

/-- Witness for the amended C8 at concrete inputs: a one-chunk text-only
stream demultiplexes to zero files, and with a fresh output directory the
endpoint reports the no-output error. -/
theorem c8_amended_witness :
    process_api_stream_response (fun _ => 0) "out"
        [⟨some [⟨some ⟨some [⟨none, some "hello"⟩]⟩⟩]⟩] =
      .ok ⟨0, 0, [], streamTexts [⟨some [⟨some ⟨some [⟨none, some "hello"⟩]⟩⟩]⟩]⟩ ∧
    generate_table true true true (some "k") [] (fun _ => [1]) (fun _ => []) (fun _ => 0)
        "v.png" "o.png" "k.png" =
      .httpError 500 "Generation failed: 500: Image generation failed - no output produced" :=
  ⟨c8_amended_empty_result.1 (fun _ => 0) "out"
      [⟨some [⟨some ⟨some [⟨none, some "hello"⟩]⟩⟩]⟩] (by decide),
   c8_amended_empty_result.2 "k" [] (fun _ => [1]) (fun _ => []) (fun _ => 0)
      "v.png" "o.png" "k.png" (by simp) (by decide) (by decide) (by decide)
      (fun req c hc => absurd hc (by simp))⟩
